import Mathlib

/-!
Shallow embedding of the realtime audio client in `src/components/LiveView.tsx`
(LiveSession orchestration, playback scheduling, teardown) together with the
PCM16 sample codec described in the specification.  Times and durations on the
output audio clock are modelled as rationals; machine state held in React refs
is modelled as explicit record fields; steps of the code that may raise are
modelled with explicit fault parameters or `Except`.
-/

namespace LiveView

/-- An `AudioBufferSourceNode` created by the `onmessage` handler:
its identifier, the absolute start time passed to `source.start`, the
duration of the attached buffer, and whether `stop` has been called on it. -/
structure SourceNode where
  id : Nat
  startTime : ℚ
  duration : ℚ
  stopped : Bool
deriving Repr, DecidableEq

/-- The playback-scheduling state held in `nextStartTimeRef` and
`scheduledSourcesRef`: the schedule cursor and the active set of
scheduled sources (the set is modelled as a list in insertion order). -/
structure PlaybackState where
  nextStartTime : ℚ
  scheduledSources : List SourceNode
deriving Repr, DecidableEq

/-- The playback state at component mount: cursor `0`, no sources. -/
def PlaybackState.initial : PlaybackState :=
  { nextStartTime := 0, scheduledSources := [] }

/-- Lines 143-159 of `LiveView.tsx`: create a source for a decoded buffer of
duration `d`, clamp the cursor up to `currentTime` if it has fallen behind,
start the source at the (clamped) cursor, advance the cursor by `d`, and add
the source to the active set.  Returns the new state and the start time the
source received. -/
def scheduleBuffer (st : PlaybackState) (currentTime : ℚ) (d : ℚ) (i : Nat) :
    PlaybackState × ℚ :=
  let t := if st.nextStartTime < currentTime then currentTime else st.nextStartTime
  let src : SourceNode := { id := i, startTime := t, duration := d, stopped := false }
  ({ nextStartTime := t + d, scheduledSources := st.scheduledSources ++ [src] }, t)

/-- `AudioBufferSourceNode.stop`: raises if the node was already stopped. -/
def SourceNode.stopRaw (s : SourceNode) : Except String SourceNode :=
  if s.stopped then .error "InvalidStateError: already stopped"
  else .ok { s with stopped := true }

/-- `try { src.stop(); } catch (e) {}` — stopping with the "already stopped"
error swallowed as benign. -/
def SourceNode.stopBenign (s : SourceNode) : SourceNode :=
  match s.stopRaw with
  | .ok s' => s'
  | .error _ => s

/-- Lines 166-173 of `LiveView.tsx` (interruption handling): stop every
source in the active set (benignly), clear the set, and reset the cursor to
`0`.  Returns the new state together with the sources as they were left by
the stop calls. -/
def interruptPlayback (st : PlaybackState) : PlaybackState × List SourceNode :=
  let stoppedSources := st.scheduledSources.map SourceNode.stopBenign
  ({ nextStartTime := 0, scheduledSources := [] }, stoppedSources)

/-- The buffer returned by `decodeAudioData`: all the `onmessage` handler
reads from it is its duration on the output clock. -/
structure PlaybackBuffer where
  duration : ℚ
deriving Repr, DecidableEq

/-- An inbound `LiveServerMessage` as the `onmessage` handler inspects it: the
optional audio payload at `serverContent.modelTurn.parts[0].inlineData.data` —
`some (.ok b)` when the base64 data decodes to a buffer `b`, `some (.error e)`
when decoding raises — and the `serverContent.interrupted` flag. -/
structure ServerMessage where
  audio : Option (Except String PlaybackBuffer)
  interrupted : Bool

/-- Lines 132-173 of `LiveView.tsx`: the `onmessage` handler acting on the
playback state.  The audio block runs first: a successfully decoded payload is
scheduled via `scheduleBuffer`; a decode failure is caught, logged, and the
chunk dropped with the state unchanged.  The interruption block runs second:
if the message carries `interrupted`, the scheduled sources are stopped and
the scheduler is reset. -/
def processMessage (m : ServerMessage) (currentTime : ℚ) (i : Nat)
    (st : PlaybackState) : PlaybackState :=
  let st1 := match m.audio with
    | none => st
    | some (.error _) => st
    | some (.ok b) => (scheduleBuffer st currentTime b.duration i).1
  if m.interrupted then (interruptPlayback st1).1 else st1

/-- A stream of inbound messages processed in arrival order, each with the
output-clock reading at its arrival and consecutive fresh source ids. -/
def processMessages (msgs : List (ServerMessage × ℚ)) (i : Nat)
    (st : PlaybackState) : PlaybackState :=
  match msgs with
  | [] => st
  | (m, c) :: rest => processMessages rest (i + 1) (processMessage m c i st)

/-- The durations of the successfully decoded audio payloads of a message
stream, in arrival order. -/
def arrivalDurations (msgs : List (ServerMessage × ℚ)) : List ℚ :=
  match msgs with
  | [] => []
  | (m, _) :: rest =>
    match m.audio with
    | some (.ok b) => b.duration :: arrivalDurations rest
    | _ => arrivalDurations rest

/-- A concrete in-flight source used to evaluate the theorems. -/
def demoSourceA : SourceNode :=
  { id := 0, startTime := 0, duration := 1, stopped := false }

/-- A concrete already-stopped source used to evaluate the theorems. -/
def demoSourceB : SourceNode :=
  { id := 1, startTime := 1, duration := 2, stopped := true }

/-- A concrete playback state with two sources scheduled and the cursor at 3. -/
def demoPlayback : PlaybackState :=
  { nextStartTime := 3, scheduledSources := [demoSourceA, demoSourceB] }

/-- The `status` state variable of the `LiveView` component. -/
inductive Status
  | disconnected
  | connecting
  | connected
  | error
deriving Repr, DecidableEq

/-- The mutable state of the `LiveView` component: the two React state
variables, and the refs holding the remote session and the live hardware
handles (a `Bool` field records whether the ref is non-null). -/
structure SessionState where
  isActive : Bool
  status : Status
  errorMessage : Option String
  sessionOpen : Bool
  stream : Bool
  sourceNode : Bool
  processorNode : Bool
  inputContext : Bool
  outputContext : Bool
  playback : PlaybackState
deriving Repr, DecidableEq

/-- The component state at mount: disconnected, nothing acquired. -/
def SessionState.initial : SessionState :=
  { isActive := false, status := .disconnected, errorMessage := none,
    sessionOpen := false, stream := false, sourceNode := false,
    processorNode := false, inputContext := false, outputContext := false,
    playback := PlaybackState.initial }

/-- The state a completed `stopSession` leaves behind: everything released,
scheduler reset, status `disconnected`; the error message is untouched. -/
def SessionState.shutdownOf (st : SessionState) : SessionState :=
  { st with
    isActive := false, status := .disconnected, sessionOpen := false,
    stream := false, sourceNode := false, processorNode := false,
    inputContext := false, outputContext := false,
    playback := PlaybackState.initial }

/-- The individually fallible hardware/teardown calls inside `stopSession`. -/
inductive TeardownStep
  | closeSession
  | stopStreamTracks
  | disconnectSource
  | disconnectProcessor
  | closeInputContext
  | closeOutputContext
deriving Repr, DecidableEq

/-- Lines 29-76 of `LiveView.tsx` (`stopSession`), under a fault assignment
`raises` saying which teardown calls raise.  Only the remote-session `close`
(step 1) and the per-source `stop` calls (step 4) are wrapped in `try/catch`
in the source; a raise in any other step escapes `stopSession`, returned here
as `.error` carrying the step and the state at that point (the remaining
steps do not run, and the raising step's ref keeps its value). -/
def stopSessionRun (raises : TeardownStep → Bool) (st0 : SessionState) :
    Except (TeardownStep × SessionState) SessionState := do
  -- 1. Close API session: the close call sits in try/catch, so even when it
  -- raises the error is logged, swallowed, and the ref is cleared.
  let st1 := if st0.sessionOpen then { st0 with sessionOpen := false } else st0
  -- 2. Stop microphone tracks (unguarded).
  let st2 ← if st1.stream then
      if raises .stopStreamTracks then .error (.stopStreamTracks, st1)
      else .ok { st1 with stream := false }
    else .ok st1
  -- 3. Disconnect input nodes and close the input context (unguarded).
  let st3 ← if st2.sourceNode then
      if raises .disconnectSource then .error (.disconnectSource, st2)
      else .ok { st2 with sourceNode := false }
    else .ok st2
  let st4 ← if st3.processorNode then
      if raises .disconnectProcessor then .error (.disconnectProcessor, st3)
      else .ok { st3 with processorNode := false }
    else .ok st3
  let st5 ← if st4.inputContext then
      if raises .closeInputContext then .error (.closeInputContext, st4)
      else .ok { st4 with inputContext := false }
    else .ok st4
  -- 4. Stop output audio: each source's stop is individually guarded by
  -- try/catch (benign), then the active set is cleared.
  let st6 := { st5 with playback :=
      { st5.playback with scheduledSources := [] } }
  let st7 ← if st6.outputContext then
      if raises .closeOutputContext then .error (.closeOutputContext, st6)
      else .ok { st6 with outputContext := false }
    else .ok st6
  -- Finally: setIsActive(false), setStatus('disconnected'), cursor reset.
  .ok { st7 with
        isActive := false, status := .disconnected,
        playback := { st7.playback with nextStartTime := 0 } }

/-- The fault assignment where no teardown call raises. -/
def noRaise : TeardownStep → Bool := fun _ => false

/-- The fault assignment where exactly the microphone-track stop raises. -/
def demoRaisesStream : TeardownStep → Bool :=
  fun s => match s with
  | .stopStreamTracks => true
  | _ => false

/-- The fault assignment where exactly the remote-session close raises. -/
def demoRaisesClose : TeardownStep → Bool :=
  fun s => match s with
  | .closeSession => true
  | _ => false

/-- Whether the microphone permission request succeeds. -/
inductive MicOutcome
  | granted
  | denied
deriving Repr, DecidableEq

/-- How `ai.live.connect` behaves: the promise resolves and `onopen` fires;
the promise rejects (remote open failure); or the call throws synchronously. -/
inductive ConnectOutcome
  | opened
  | rejectAsync
  | throwSync
deriving Repr, DecidableEq

/-- Lines 78-205 of `LiveView.tsx` (`startSession`), parameterised by the
outcomes of the microphone request and the remote connect.  The function
mirrors the source's control flow: status `connecting`, acquire both audio
contexts, request the microphone (failure is caught: status `error`,
nothing released), initiate the connect (synchronous throw caught likewise;
asynchronous rejection handled by the promise `catch`: status `error`,
nothing released), and on `onopen` mark connected, active, and install the
capture nodes. -/
def startSession (mic : MicOutcome) (conn : ConnectOutcome)
    (st : SessionState) : SessionState :=
  let st1 := { st with errorMessage := none, status := Status.connecting }
  let st2 := { st1 with inputContext := true, outputContext := true }
  match mic with
  | .denied =>
    { st2 with
      errorMessage := some "Microphone access denied or API unavailable.",
      status := Status.error }
  | .granted =>
    let st3 := { st2 with stream := true }
    match conn with
    | .throwSync =>
      { st3 with
        errorMessage := some "Microphone access denied or API unavailable.",
        status := Status.error }
    | .rejectAsync =>
      { st3 with
        errorMessage := some "Failed to connect to Gemini Live.",
        status := Status.error }
    | .opened =>
      { st3 with
        status := Status.connected, isActive := true,
        sessionOpen := true, sourceNode := true, processorNode := true }

/-- What the start/stop control does when clicked. -/
inductive ButtonAction
  | rejected
  | invokeStop
  | invokeStart
deriving Repr, DecidableEq

/-- Lines 226-228 of `LiveView.tsx`: the control is disabled while
`status === 'connecting'`; otherwise its click handler is `stopSession` when
`isActive` and `startSession` when not. -/
def liveButtonAction (isActive : Bool) (status : Status) : ButtonAction :=
  if status = Status.connecting then .rejected
  else if isActive then .invokeStop
  else .invokeStart

/-- Session-level `onmessage`: the handler returns immediately when the
output-context ref is null, otherwise it updates only the playback state. -/
def onMessage (m : ServerMessage) (currentTime : ℚ) (i : Nat)
    (st : SessionState) : SessionState :=
  if st.outputContext then
    { st with playback := processMessage m currentTime i st.playback }
  else st

/-- The state reached by a failed remote connect from a fresh mount. -/
def demoErrorState : SessionState :=
  startSession .granted .rejectAsync SessionState.initial

/-- A fully connected session with the demo playback state. -/
def demoLive : SessionState :=
  { startSession .granted .opened SessionState.initial with
    playback := demoPlayback }

/-- The state `stopSession` reaches when the microphone-track stop raises on
`demoLive`: only the remote session has been closed. -/
def demoFailedTeardown : SessionState :=
  { demoLive with sessionOpen := false }

/-- Two good audio messages around one malformed one, in arrival order, each
paired with the output-clock reading at its arrival. -/
def demoMessages : List (ServerMessage × ℚ) :=
  [({ audio := some (.ok { duration := 1/2 }), interrupted := false }, 0),
   ({ audio := some (.error "bad base64"), interrupted := false }, 0),
   ({ audio := some (.ok { duration := 3/10 }), interrupted := false }, 0)]

end LiveView

namespace SampleCodec

/-- Truncation of a rational toward zero, as JavaScript's conversion of a
float to a signed integer behaves. -/
def truncQ (q : ℚ) : ℤ := if 0 ≤ q then ⌊q⌋ else ⌈q⌉

/-- Modelled from the spec: the repository's `src/utils/audioUtils.ts`
(imported by `LiveView.tsx` for `createPCM16Blob` / `decodeAudioData`) is not
among the sources.  Per §4.1, encoding clamps each sample to `[-1, 1]` and
scales it to a signed 16-bit integer; the scale is the signed 16-bit range
`32768`, the result capped at the largest representable value `32767`. -/
def encodeSample (x : ℚ) : ℤ :=
  min 32767 (truncQ (max (-1) (min 1 x) * 32768))

/-- Modelled from the spec: §4.1, decoding is "the inverse mapping, dividing
by the signed 16-bit range". -/
def decodeSample (n : ℤ) : ℚ := (n : ℚ) / 32768

/-- Modelled from the spec: `encodeToPCM16` maps the per-sample encoding over
a sample sequence. -/
def encodeToPCM16 (s : List ℚ) : List ℤ := s.map encodeSample

/-- Modelled from the spec: `decodeFromPCM16` maps the per-sample decoding
over a 16-bit sample sequence. -/
def decodeFromPCM16 (l : List ℤ) : List ℚ := l.map decodeSample

end SampleCodec

namespace LiveView

/-- Stopping a source benignly always leaves it stopped. -/
theorem stopBenign_stopped (s : SourceNode) :
    (SourceNode.stopBenign s).stopped = true := by
  by_cases h : s.stopped
  · simp [SourceNode.stopBenign, SourceNode.stopRaw, h]
  · simp [SourceNode.stopBenign, SourceNode.stopRaw, h]

/-- The start time handed to a scheduled source is the maximum of the clock
reading and the cursor. -/
theorem scheduleBuffer_start (st : PlaybackState) (c d : ℚ) (i : Nat) :
    (scheduleBuffer st c d i).2 = max c st.nextStartTime := by
  rcases lt_or_le st.nextStartTime c with h | h
  · simp [scheduleBuffer, if_pos h, max_eq_left h.le]
  · simp [scheduleBuffer, if_neg (not_lt.mpr h), max_eq_right h]

/-- Enqueuing appends exactly one fresh (unstopped) source to the active set. -/
theorem scheduleBuffer_sources (st : PlaybackState) (c d : ℚ) (i : Nat) :
    (scheduleBuffer st c d i).1.scheduledSources
      = st.scheduledSources
          ++ [{ id := i, startTime := (scheduleBuffer st c d i).2,
                duration := d, stopped := false }] := rfl

/-- Claim C1: each enqueue starts its buffer at `max(outputClockNow,
nextStartTime)` and advances the cursor by the buffer's duration; three
buffers of durations `d1, d2, d3` enqueued faster than real time (each clock
reading at most the cursor left by the previous enqueue) receive start times
`t`, `t + d1`, `t + d1 + d2` — gapless and non-overlapping. -/
theorem scheduleBuffer_gapless
    (st : PlaybackState) (c1 c2 c3 d1 d2 d3 : ℚ) (i1 i2 i3 : Nat)
    (h2 : c2 ≤ (scheduleBuffer st c1 d1 i1).2 + d1)
    (h3 : c3 ≤ (scheduleBuffer st c1 d1 i1).2 + d1 + d2) :
    (scheduleBuffer st c1 d1 i1).2 = max c1 st.nextStartTime ∧
    ((scheduleBuffer st c1 d1 i1).1).nextStartTime
        = (scheduleBuffer st c1 d1 i1).2 + d1 ∧
    (scheduleBuffer (scheduleBuffer st c1 d1 i1).1 c2 d2 i2).2
        = (scheduleBuffer st c1 d1 i1).2 + d1 ∧
    (scheduleBuffer
        (scheduleBuffer (scheduleBuffer st c1 d1 i1).1 c2 d2 i2).1 c3 d3 i3).2
        = (scheduleBuffer st c1 d1 i1).2 + d1 + d2 := by
  refine ⟨?_, rfl, ?_, ?_⟩
  · rcases lt_or_le st.nextStartTime c1 with h | h
    · simp [scheduleBuffer, if_pos h, max_eq_left h.le]
    · simp [scheduleBuffer, if_neg (not_lt.mpr h), max_eq_right h]
  · simp only [scheduleBuffer] at h2 ⊢
    simp [if_neg (not_lt.mpr h2)]
  · simp only [scheduleBuffer] at h2 h3 ⊢
    simp [if_neg (not_lt.mpr h2), if_neg (not_lt.mpr h3)]

/-- Witness for C1 at concrete inputs: from the initial state with the clock
at `0` and durations `1, 2, 3`, the start times are `0, 1, 3`. -/
theorem scheduleBuffer_gapless_witness :
    (scheduleBuffer PlaybackState.initial 0 1 0).2 = max 0 PlaybackState.initial.nextStartTime ∧
    ((scheduleBuffer PlaybackState.initial 0 1 0).1).nextStartTime
        = (scheduleBuffer PlaybackState.initial 0 1 0).2 + 1 ∧
    (scheduleBuffer (scheduleBuffer PlaybackState.initial 0 1 0).1 0 2 1).2
        = (scheduleBuffer PlaybackState.initial 0 1 0).2 + 1 ∧
    (scheduleBuffer
        (scheduleBuffer (scheduleBuffer PlaybackState.initial 0 1 0).1 0 2 1).1 0 3 2).2
        = (scheduleBuffer PlaybackState.initial 0 1 0).2 + 1 + 2 :=
  scheduleBuffer_gapless PlaybackState.initial 0 0 0 1 2 3 0 1 2
    (by norm_num [scheduleBuffer, PlaybackState.initial])
    (by norm_num [scheduleBuffer, PlaybackState.initial])

/-- Claim C2: interruption — at any point, including before any audio has been
enqueued — stops every scheduled or in-flight source (an already-stopped
source raises, and the error is swallowed as benign), leaves the active set
empty, resets the cursor to `0`, and a subsequent enqueue with the output
clock at `c ≥ 0` starts at `c`, not at the pre-interruption cursor. -/
theorem interruptPlayback_resets (st : PlaybackState) :
    (interruptPlayback st).1.scheduledSources = [] ∧
    (interruptPlayback st).1.nextStartTime = 0 ∧
    (interruptPlayback st).2.length = st.scheduledSources.length ∧
    (∀ s ∈ (interruptPlayback st).2, s.stopped = true) ∧
    (∀ s : SourceNode, s.stopped = true →
      s.stopRaw.isOk = false ∧ s.stopBenign = s) ∧
    interruptPlayback PlaybackState.initial = (PlaybackState.initial, []) ∧
    (∀ (c d : ℚ) (i : Nat), 0 ≤ c →
      (scheduleBuffer (interruptPlayback st).1 c d i).2 = c) := by
  refine ⟨rfl, rfl, by simp [interruptPlayback], ?_, ?_, rfl, ?_⟩
  · intro s hs
    simp only [interruptPlayback, List.mem_map] at hs
    obtain ⟨s0, _, rfl⟩ := hs
    exact stopBenign_stopped s0
  · intro s hstopped
    constructor
    · simp [SourceNode.stopRaw, hstopped, Except.isOk, Except.toBool]
    · simp [SourceNode.stopBenign, SourceNode.stopRaw, hstopped]
  · intro c d i hc
    rw [scheduleBuffer_start]
    simp [interruptPlayback, max_eq_left hc]

/-- Witness for C2 at a concrete state: interrupting `demoPlayback` (one live
source, one already stopped, cursor at 3) leaves both sources stopped and an
empty set, and the next enqueue at clock 2 starts at 2. -/
theorem interruptPlayback_resets_witness :
    (interruptPlayback demoPlayback).1.scheduledSources = [] ∧
    (∀ s ∈ (interruptPlayback demoPlayback).2, s.stopped = true) ∧
    (scheduleBuffer (interruptPlayback demoPlayback).1 2 5 7).2 = 2 := by
  have h := interruptPlayback_resets demoPlayback
  exact ⟨h.1, h.2.2.2.1, h.2.2.2.2.2.2 2 5 7 (by norm_num)⟩

/-- When none of the unguarded teardown calls raises, `stopSession` runs to
completion: everything is released and the state is reset (the remote-session
close may still raise; its error is swallowed). -/
theorem stopSessionRun_graceful (raises : TeardownStep → Bool)
    (st : SessionState)
    (h1 : raises .stopStreamTracks = false)
    (h2 : raises .disconnectSource = false)
    (h3 : raises .disconnectProcessor = false)
    (h4 : raises .closeInputContext = false)
    (h5 : raises .closeOutputContext = false) :
    stopSessionRun raises st = .ok st.shutdownOf := by
  obtain ⟨ia, s, e, so, str, sn, pn, ic, oc, nst, srcs⟩ := st
  cases so <;> cases str <;> cases sn <;> cases pn <;> cases ic <;> cases oc <;>
    simp [stopSessionRun, SessionState.shutdownOf, PlaybackState.initial,
      h1, h2, h3, h4, h5, Bind.bind, Except.bind]

/-- Claim C5 counterexample: when the microphone-track stop raises during
teardown of a live session, `stopSession` aborts at that step — the stream,
the input context, the output context, and the scheduled sources are all
still held, so the remaining release steps did not execute. -/
theorem stopSession_abort_counterexample :
    stopSessionRun demoRaisesStream demoLive
        = .error (.stopStreamTracks, demoFailedTeardown) ∧
    demoFailedTeardown.stream = true ∧
    demoFailedTeardown.inputContext = true ∧
    demoFailedTeardown.outputContext = true ∧
    demoFailedTeardown.playback.scheduledSources ≠ [] := by
  refine ⟨rfl, rfl, rfl, rfl, by decide⟩

/-- Claim C5 (amended): only the remote-session close and the per-source
stops are guarded in `stopSession`; whenever no unguarded step raises — a
raise in the remote-session close still being swallowed — teardown runs to
completion, releasing every device handle and resetting the session. -/
theorem stopSession_graceful_guarded (raises : TeardownStep → Bool)
    (st : SessionState)
    (h1 : raises .stopStreamTracks = false)
    (h2 : raises .disconnectSource = false)
    (h3 : raises .disconnectProcessor = false)
    (h4 : raises .closeInputContext = false)
    (h5 : raises .closeOutputContext = false) :
    stopSessionRun raises st = .ok st.shutdownOf ∧
    st.shutdownOf.stream = false ∧
    st.shutdownOf.inputContext = false ∧
    st.shutdownOf.outputContext = false ∧
    st.shutdownOf.playback.scheduledSources = [] :=
  ⟨stopSessionRun_graceful raises st h1 h2 h3 h4 h5, rfl, rfl, rfl, rfl⟩

/-- Witness for amended C5: tearing down the live demo session with the
remote-session close raising still completes and releases everything. -/
theorem stopSession_graceful_guarded_witness :
    stopSessionRun demoRaisesClose demoLive = .ok demoLive.shutdownOf ∧
    demoLive.shutdownOf.stream = false ∧
    demoLive.shutdownOf.inputContext = false ∧
    demoLive.shutdownOf.outputContext = false ∧
    demoLive.shutdownOf.playback.scheduledSources = [] :=
  stopSession_graceful_guarded demoRaisesClose demoLive rfl rfl rfl rfl rfl

/-- Claim C8: stopping before any start succeeds under every fault assignment
and leaves the initial (disconnected) state unchanged; and stop is idempotent:
a fault-free stop from any state yields the shut-down state, and stopping
again returns exactly that same state, still disconnected and inactive. -/
theorem stopSession_idempotent :
    (∀ raises, stopSessionRun raises SessionState.initial
        = .ok SessionState.initial) ∧
    (∀ st : SessionState,
      stopSessionRun noRaise st = .ok st.shutdownOf ∧
      stopSessionRun noRaise st.shutdownOf = .ok st.shutdownOf ∧
      st.shutdownOf.status = .disconnected ∧
      st.shutdownOf.isActive = false) := by
  constructor
  · intro raises
    rfl
  · intro st
    have h1 := stopSessionRun_graceful noRaise st rfl rfl rfl rfl rfl
    have h2 := stopSessionRun_graceful noRaise st.shutdownOf rfl rfl rfl rfl rfl
    have h3 : st.shutdownOf.shutdownOf = st.shutdownOf := by
      obtain ⟨ia, s, e, so, str, sn, pn, ic, oc, nst, srcs⟩ := st
      rfl
    exact ⟨h1, by rw [h2, h3], rfl, rfl⟩

/-- Claim C3 counterexample: the `error` state reached by a failed connect has
`isActive` false, so the control is enabled and its click handler is
`startSession` — start is not rejected from this non-disconnected state. -/
theorem start_from_error_counterexample :
    demoErrorState.status = Status.error ∧
    demoErrorState.isActive = false ∧
    liveButtonAction demoErrorState.isActive demoErrorState.status
      = ButtonAction.invokeStart :=
  ⟨rfl, rfl, rfl⟩

/-- Claim C3 (amended): the UI invokes `startSession` exactly when the session
is not `connecting` and not active — a new start is rejected while connecting
(control disabled) or active/connected (the click invokes stop instead), but
from `error`, as from `disconnected`, start is invoked. -/
theorem start_gating (isActive : Bool) (status : Status) :
    liveButtonAction isActive status = ButtonAction.invokeStart ↔
      status ≠ Status.connecting ∧ isActive = false := by
  cases status <;> cases isActive <;> decide

/-- Claim C4 counterexample: after a remote-connect rejection from a fresh
mount the status is `error`, yet the microphone stream and both audio
contexts are still held — the failure path releases nothing. -/
theorem connect_failure_counterexample :
    demoErrorState.status = Status.error ∧
    demoErrorState.stream = true ∧
    demoErrorState.inputContext = true ∧
    demoErrorState.outputContext = true :=
  ⟨rfl, rfl, rfl, rfl⟩

/-- Claim C4 (amended): on remote session open failure — asynchronous
rejection or synchronous throw after the microphone was granted — the session
transitions to `error` and records an error message, but the resources
acquired so far (microphone stream, input and output audio contexts) are not
released; they stay held until the next stop. -/
theorem connect_failure_error_state (st : SessionState) (conn : ConnectOutcome)
    (h : conn ≠ ConnectOutcome.opened) :
    (startSession .granted conn st).status = Status.error ∧
    (startSession .granted conn st).errorMessage.isSome = true ∧
    (startSession .granted conn st).stream = true ∧
    (startSession .granted conn st).inputContext = true ∧
    (startSession .granted conn st).outputContext = true := by
  cases conn with
  | opened => exact absurd rfl h
  | rejectAsync => exact ⟨rfl, rfl, rfl, rfl, rfl⟩
  | throwSync => exact ⟨rfl, rfl, rfl, rfl, rfl⟩

/-- Witness for amended C4 at the concrete rejected connect from a fresh
mount. -/
theorem connect_failure_error_state_witness :
    (startSession .granted .rejectAsync SessionState.initial).status
        = Status.error ∧
    (startSession .granted .rejectAsync SessionState.initial).errorMessage.isSome
        = true ∧
    (startSession .granted .rejectAsync SessionState.initial).stream = true ∧
    (startSession .granted .rejectAsync SessionState.initial).inputContext
        = true ∧
    (startSession .granted .rejectAsync SessionState.initial).outputContext
        = true :=
  connect_failure_error_state SessionState.initial .rejectAsync (by decide)

/-- Each good payload of an interruption-free message stream is enqueued, in
arrival order: the durations of the active set grow by exactly the
arrival-ordered payload durations. -/
theorem processMessages_order :
    ∀ (msgs : List (ServerMessage × ℚ)) (i : Nat) (st : PlaybackState),
    (∀ p ∈ msgs, p.1.interrupted = false) →
    (processMessages msgs i st).scheduledSources.map SourceNode.duration
      = st.scheduledSources.map SourceNode.duration ++ arrivalDurations msgs
  | [], _, _, _ => by simp [processMessages, arrivalDurations]
  | (m, c) :: rest, i, st, hno => by
    have hm : m.interrupted = false := hno (m, c) (List.mem_cons_self _ _)
    have ih := processMessages_order rest (i + 1) (processMessage m c i st)
      (fun q hq => hno q (List.mem_cons_of_mem _ hq))
    simp only [processMessages]
    rw [ih]
    cases ha : m.audio with
    | none => simp [processMessage, hm, ha, arrivalDurations]
    | some r =>
      cases r with
      | error e => simp [processMessage, hm, ha, arrivalDurations]
      | ok b => simp [processMessage, hm, ha, arrivalDurations, scheduleBuffer]

/-- Claim C6: an inbound message with a decodable audio payload has its buffer
enqueued on the scheduler (one fresh source appended, starting at
`max(clock, cursor)`), and an interruption-free message stream enqueues its
payloads in arrival order. -/
theorem inbound_audio_in_order (msgs : List (ServerMessage × ℚ)) (i : Nat)
    (st : PlaybackState)
    (hno : ∀ p ∈ msgs, p.1.interrupted = false) :
    ((processMessages msgs i st).scheduledSources.map SourceNode.duration
      = st.scheduledSources.map SourceNode.duration ++ arrivalDurations msgs) ∧
    (∀ (b : PlaybackBuffer) (c : ℚ) (j : Nat) (stx : PlaybackState),
      (processMessage { audio := some (.ok b), interrupted := false } c j
          stx).scheduledSources
        = stx.scheduledSources
            ++ [{ id := j, startTime := max c stx.nextStartTime,
                  duration := b.duration, stopped := false }]) := by
  refine ⟨processMessages_order msgs i st hno, ?_⟩
  intro b c j stx
  show (scheduleBuffer stx c b.duration j).1.scheduledSources = _
  rw [scheduleBuffer_sources, scheduleBuffer_start]

/-- Witness for C6 on the demo stream (good, malformed, good): the two good
payload durations are appended in arrival order. -/
theorem inbound_audio_in_order_witness :
    (processMessages demoMessages 0
        PlaybackState.initial).scheduledSources.map SourceNode.duration
      = PlaybackState.initial.scheduledSources.map SourceNode.duration
          ++ arrivalDurations demoMessages :=
  (inbound_audio_in_order demoMessages 0 PlaybackState.initial (by
    intro p hp
    simp only [demoMessages, List.mem_cons, List.not_mem_nil, or_false] at hp
    rcases hp with rfl | rfl | rfl <;> rfl)).1

/-- Claim C7: a message whose audio payload fails to decode, with no
interruption flag, is dropped whole: the handler leaves the session state
exactly unchanged, and in particular a connected session stays connected. -/
theorem malformed_chunk_dropped (e : String) (c : ℚ) (i : Nat)
    (st : SessionState) (hconn : st.status = Status.connected) :
    onMessage { audio := some (.error e), interrupted := false } c i st = st ∧
    (onMessage { audio := some (.error e), interrupted := false } c i st).status
      = Status.connected := by
  have hid :
      onMessage { audio := some (.error e), interrupted := false } c i st
        = st := by
    obtain ⟨ia, s, em, so, str, sn, pn, ic, oc, pb⟩ := st
    cases oc <;> simp [onMessage, processMessage]
  exact ⟨hid, by rw [hid, hconn]⟩

/-- Witness for C7: a malformed chunk arriving on the live demo session
changes nothing and the session stays connected. -/
theorem malformed_chunk_dropped_witness :
    onMessage { audio := some (.error "bad base64"), interrupted := false }
        1 5 demoLive = demoLive ∧
    (onMessage { audio := some (.error "bad base64"), interrupted := false }
        1 5 demoLive).status = Status.connected :=
  malformed_chunk_dropped "bad base64" 1 5 demoLive rfl

/-- Claim C10: a message carrying both a decodable audio payload and the
interrupted flag is handled audio-first, interruption-second: the handler's
result is exactly the interruption of the state in which the buffer had just
been scheduled, so it ends with an empty active set and the cursor at 0. -/
theorem interruption_wins_same_message (b : PlaybackBuffer) (c : ℚ) (i : Nat)
    (st : PlaybackState) :
    processMessage { audio := some (.ok b), interrupted := true } c i st
      = (interruptPlayback (scheduleBuffer st c b.duration i).1).1 ∧
    (processMessage { audio := some (.ok b), interrupted := true } c i
        st).scheduledSources = [] ∧
    (processMessage { audio := some (.ok b), interrupted := true } c i
        st).nextStartTime = 0 :=
  ⟨rfl, rfl, rfl⟩

end LiveView

namespace SampleCodec

/-- One encode/decode round trip moves a sample in `[-1, 1]` by at most one
quantization step of the 16-bit encoding. -/
theorem roundtrip_sample (x : ℚ) (h1 : -1 ≤ x) (h2 : x ≤ 1) :
    |decodeSample (encodeSample x) - x| ≤ 1 / 32768 := by
  have hclamp : max (-1) (min 1 x) = x := by
    rw [min_eq_right h2, max_eq_right h1]
  have hyle : x * 32768 ≤ 32768 := by nlinarith
  have key : |((min 32767 (truncQ (x * 32768)) : ℤ) : ℚ) - x * 32768| ≤ 1 := by
    rcases le_or_lt 0 (x * 32768) with hy | hy
    · rw [truncQ, if_pos hy]
      rcases le_or_lt (⌊x * 32768⌋) 32767 with hfl | hfl
      · rw [min_eq_right hfl]
        have hle : (⌊x * 32768⌋ : ℚ) ≤ x * 32768 := Int.floor_le _
        have hgt : x * 32768 < ⌊x * 32768⌋ + 1 := Int.lt_floor_add_one _
        rw [abs_le]
        constructor <;> linarith
      · have h32 : (32768 : ℤ) ≤ ⌊x * 32768⌋ := hfl
        have h32q : (32768 : ℚ) ≤ x * 32768 := by
          have h := Int.le_floor.mp h32
          exact_mod_cast h
        have hyeq : x * 32768 = 32768 := le_antisymm hyle h32q
        rw [min_eq_left (by omega : (32767 : ℤ) ≤ ⌊x * 32768⌋), hyeq]
        norm_num
    · rw [truncQ, if_neg (not_le.mpr hy)]
      have hc1 : x * 32768 ≤ ⌈x * 32768⌉ := Int.le_ceil _
      have hc2 : (⌈x * 32768⌉ : ℚ) < x * 32768 + 1 := Int.ceil_lt_add_one _
      have hcle : ⌈x * 32768⌉ ≤ 32767 := by
        apply Int.ceil_le.mpr
        push_cast
        linarith
      rw [min_eq_right hcle, abs_le]
      constructor <;> linarith
  unfold encodeSample decodeSample
  rw [hclamp]
  have hrw :
      ((min 32767 (truncQ (x * 32768)) : ℤ) : ℚ) / 32768 - x
        = (((min 32767 (truncQ (x * 32768)) : ℤ) : ℚ) - x * 32768) / 32768 := by
    ring
  rw [hrw, abs_div, abs_of_pos (by norm_num : (0 : ℚ) < 32768)]
  linarith

/-- Pointwise round-trip bound at every index of a sample sequence. -/
theorem roundtrip_getD :
    ∀ (s : List ℚ), (∀ x ∈ s, -1 ≤ x ∧ x ≤ 1) →
    ∀ i : Nat, i < s.length →
    |(decodeFromPCM16 (encodeToPCM16 s)).getD i 0 - s.getD i 0| ≤ 1 / 32768
  | [], _, i, hi => by simp at hi
  | a :: t, hs, 0, _ => by
    simpa [decodeFromPCM16, encodeToPCM16] using
      roundtrip_sample a (hs a (List.mem_cons_self _ _)).1
        (hs a (List.mem_cons_self _ _)).2
  | a :: t, hs, i + 1, hi => by
    have h := roundtrip_getD t (fun x hx => hs x (List.mem_cons_of_mem _ hx))
      i (by simpa using hi)
    simpa [decodeFromPCM16, encodeToPCM16] using h

/-- Claim C9: decoding an encoded sample sequence whose values lie in
`[-1, 1]` yields a sequence of the same length whose every element is within
`1/32768` (one 16-bit quantization step) of the original. -/
theorem pcm16_roundtrip (s : List ℚ) (hs : ∀ x ∈ s, -1 ≤ x ∧ x ≤ 1) :
    (decodeFromPCM16 (encodeToPCM16 s)).length = s.length ∧
    ∀ i : Nat, i < s.length →
      |(decodeFromPCM16 (encodeToPCM16 s)).getD i 0 - s.getD i 0|
        ≤ 1 / 32768 :=
  ⟨by simp [decodeFromPCM16, encodeToPCM16], roundtrip_getD s hs⟩

/-- Witness for C9 on the concrete sequence `[1, -1, 1/2, 0]`. -/
theorem pcm16_roundtrip_witness :
    (decodeFromPCM16 (encodeToPCM16 [1, -1, 1/2, 0])).length
        = ([1, -1, 1/2, 0] : List ℚ).length ∧
    ∀ i : Nat, i < ([1, -1, 1/2, 0] : List ℚ).length →
      |(decodeFromPCM16 (encodeToPCM16 [1, -1, 1/2, 0])).getD i 0
          - ([1, -1, 1/2, 0] : List ℚ).getD i 0| ≤ 1 / 32768 :=
  pcm16_roundtrip [1, -1, 1/2, 0] (by
    intro x hx
    simp only [List.mem_cons, List.not_mem_nil, or_false] at hx
    rcases hx with rfl | rfl | rfl | rfl <;> norm_num)

end SampleCodec
